import Mathlib

/-
  Verification development for the test-case execution core of kyua
  (engine/plain_iface/test_case.cpp).

  The C++ translation unit is embedded shallowly: pure helpers become Lean
  functions; the stateful orchestration (signal programming, work-directory
  lifecycle, fork/wait, interrupt checkpoints) becomes a function over an
  explicit environment that resolves every external effect (filesystem
  failures, the wait outcome, the value of the process-wide interrupt flag
  at each observation instant), returning the control-flow outcome together
  with a trace of the externally visible actions performed.
-/

/-! ## Process termination status and test results -/

/-- Termination status of a process as exposed by the wait primitive:
exited with a code, terminated by a signal (with or without a core dump),
or some unknown termination shape. -/
inductive ProcStatus where
  | exited (code : Int)
  | signaled (sig : Int) (core : Bool)
  | unknown
deriving DecidableEq, Repr

/-- A test-case result: passed, failed with a reason, or broken with a
reason (mirrors engine::results passed/failed/broken). -/
inductive TestResult where
  | passed
  | failed (msg : String)
  | broken (msg : String)
deriving DecidableEq, Repr

/-- The good() predicate of a result: holds only for passed. -/
def TestResult.good : TestResult → Bool
  | .passed => true
  | _ => false

/-- Exit code returned when the exec of the test program fails
(static int exec_failure_code = 120). -/
def exec_failure_code : Int := 120

/-- EXIT_SUCCESS on POSIX systems. -/
def EXIT_SUCCESS : Int := 0

/-- format_status: renders a termination status as a diagnostic string. -/
def format_status : ProcStatus → String
  | .exited code => "Exited with code " ++ toString code
  | .signaled sig core =>
      "Received signal " ++ toString sig ++ (if core then " (core dumped)" else "")
  | .unknown => "Terminated in an unknown manner"

/-- calculate_result: converts the wait outcome of the test program (none
when it timed out) to a test-case result. -/
def calculate_result : Option ProcStatus → TestResult
  | none => .broken "Test case timed out"
  | some status =>
    match status with
    | .exited code =>
        if code = EXIT_SUCCESS then .passed
        else if code = exec_failure_code then .broken "Failed to execute test program"
        else .failed (format_status (.exited code))
    | .signaled sig core => .broken (format_status (.signaled sig core))
    | .unknown => .broken (format_status .unknown)

/-- The string needle occurs contiguously inside hay. -/
def containsStr (hay needle : String) : Prop :=
  ∃ pre post : String, hay = pre ++ needle ++ post

/-! ## Interrupt monitor and the supervised wait -/

/-- Signal numbers used by the runner (Linux numbering for the platform
constants; code refers to them only symbolically). -/
def SIGHUP : Nat := 1

/-- Signal number of SIGINT. -/
def SIGINT : Nat := 2

/-- Signal number of SIGKILL (uncatchable). -/
def SIGKILL : Nat := 9

/-- Signal number of SIGTERM. -/
def SIGTERM : Nat := 15

/-- Signal number of SIGSTOP (uncatchable). -/
def SIGSTOP : Nat := 19

/-- errno value for an interrupted system call. -/
def EINTR : Nat := 4

/-- check_interrupt reads the global interrupted_signo flag (passed here as
an explicit argument: 0 means empty).  It returns some signo when the flag
is pending, which the callers turn into a raised interrupted_error, and
none when there is nothing to do. -/
def check_interrupt (flag : Nat) : Option Nat :=
  if flag ≠ 0 then some flag else none

/-- Resolution of the timed wait performed by fork_and_wait: the child
terminated with a status, the wait failed with an OS error (errno and
message), or the timeout expired. -/
inductive WaitOutcome where
  | finished (s : ProcStatus)
  | sysError (errno : Nat) (msg : String)
  | timedOut
deriving DecidableEq, Repr

/-- Exceptions that can cross fork_and_wait: the cancellation condition
carrying the pending signal number, or a generic system error message. -/
inductive Exn where
  | interrupted (signo : Nat)
  | sysErr (msg : String)
deriving DecidableEq, Repr

/-- Externally visible actions of the orchestration, recorded in order. -/
inductive RunAction where
  | program (sig : Nat)
  | unprogram (sig : Nat)
  | createWorkdir
  | mkdirRun
  | killChild
  | blockingWait
  | cleanupWorkdir
deriving DecidableEq, Repr

/-- Control-flow result of fork_and_wait: a returned wait outcome (none
means timed out), a raised exception, or the UNREACHABLE sanity abort. -/
inductive FAWResult where
  | ret (s : Option ProcStatus)
  | raised (e : Exn)
  | unreach
deriving DecidableEq, Repr

/-- fork_and_wait: forks the child and performs the timed wait.  The model
takes the resolution of the timed wait and the value of the interrupt flag
at the moment the EINTR branch runs.  On EINTR the parent kills the child
with SIGKILL, reaps it with a blocking wait, and runs check_interrupt;
if the flag is somehow empty the code falls into UNREACHABLE.  Any other
system error is re-raised; a timeout returns none. -/
def fork_and_wait (flag : Nat) (w : WaitOutcome) : FAWResult × List RunAction :=
  match w with
  | .finished s => (.ret (some s), [])
  | .timedOut => (.ret none, [])
  | .sysError errno msg =>
    if errno = EINTR then
      match check_interrupt flag with
      | some signo => (.raised (.interrupted signo), [.killChild, .blockingWait])
      | none => (.unreach, [.killChild, .blockingWait])
    else
      (.raised (.sysErr msg), [])

/-! ## The orchestrator: run_test_case_safe and do_run -/

/-- Environment of one run_test_case_safe invocation.  flag gives the value
of the global interrupted_signo at each observation instant: 0 is the
checkpoint before entering the workdir helper, 1 the checkpoint after
mkdir of the run subdirectory, 2 the EINTR branch inside fork_and_wait,
3 the checkpoint after the wait, 4 the final checkpoint after the handlers
are unprogrammed.  The Option String fields are none when the operation
succeeds and some message when it raises a filesystem error: workdir
creation, mkdir of the run subdirectory, the cleanup on the normal path,
and the cleanup inside the interrupted-error catch block. -/
structure RunEnv where
  flag : Nat → Nat
  createFails : Option String
  mkdirRunFails : Option String
  wait : WaitOutcome
  cleanupFails : Option String
  cleanupFails2 : Option String

/-- Control-flow outcome of run_test_case_safe / do_run: a returned
result, a raised interrupted_error, a raised non-interrupt exception
carrying its message, or the UNREACHABLE abort inherited from
fork_and_wait. -/
inductive RunOutcome where
  | ok (r : TestResult)
  | intr (signo : Nat)
  | err (msg : String)
  | unreach
deriving DecidableEq, Repr

/-- The catch block for engine::interrupted_error in run_test_case_safe:
it cleans up the work directory (this call is not guarded, so a
filesystem error from it replaces the interruption), unprograms the three
handlers and re-raises the interruption. -/
def catch_interrupted (e : RunEnv) (signo : Nat) (t : List RunAction) :
    RunOutcome × List RunAction :=
  match e.cleanupFails2 with
  | some m => (.err m, t ++ [.cleanupWorkdir])
  | none =>
      (.intr signo,
       t ++ [.cleanupWorkdir, .unprogram SIGHUP, .unprogram SIGINT, .unprogram SIGTERM])

/-- run_test_case_safe: programs handlers for SIGHUP, SIGINT and SIGTERM,
creates the work directory, runs the checkpointed fork-and-wait via
run_test_case_safe_workdir (inlined here: mkdir of the run subdirectory,
checkpoint, fork_and_wait, checkpoint, calculate_result), attempts
cleanup with the good-result downgrade, unprograms the handlers and runs
a final checkpoint before returning the result.  interrupted_error raised
inside the try block goes through catch_interrupted. -/
def run_test_case_safe (e : RunEnv) : RunOutcome × List RunAction :=
  let t0 : List RunAction := [.program SIGHUP, .program SIGINT, .program SIGTERM]
  match e.createFails with
  | some m => (.err m, t0)
  | none =>
    let t1 := t0 ++ [.createWorkdir]
    match check_interrupt (e.flag 0) with
    | some s => catch_interrupted e s t1
    | none =>
      match e.mkdirRunFails with
      | some m => (.err m, t1 ++ [.mkdirRun])
      | none =>
        let t2 := t1 ++ [.mkdirRun]
        match check_interrupt (e.flag 1) with
        | some s => catch_interrupted e s t2
        | none =>
          match fork_and_wait (e.flag 2) e.wait with
          | (.raised (.interrupted s), ta) => catch_interrupted e s (t2 ++ ta)
          | (.raised (.sysErr m), ta) => (.err m, t2 ++ ta)
          | (.unreach, ta) => (.unreach, t2 ++ ta)
          | (.ret st, ta) =>
            let t3 := t2 ++ ta
            match check_interrupt (e.flag 3) with
            | some s => catch_interrupted e s t3
            | none =>
              let r0 := calculate_result st
              let r1 :=
                match e.cleanupFails with
                | none => r0
                | some m =>
                  if r0.good then
                    TestResult.broken ("Could not clean up test work directory: " ++ m)
                  else r0
              let t5 := t3 ++ [.cleanupWorkdir,
                               .unprogram SIGHUP, .unprogram SIGINT, .unprogram SIGTERM]
              match check_interrupt (e.flag 4) with
              | some s => (.intr s, t5)
              | none => (.ok r1, t5)

/-- do_run: the public run entry point.  It re-raises interrupted_error
unchanged and converts any other exception escaping run_test_case_safe
into a broken result carrying the exception message.  The UNREACHABLE
abort is a process abort, not an exception, and passes through. -/
def do_run (e : RunEnv) : RunOutcome × List RunAction :=
  match run_test_case_safe e with
  | (.ok r, t) => (.ok r, t)
  | (.intr s, t) => (.intr s, t)
  | (.err m, t) =>
      (.ok (.broken ("The test caused an error in the runtime system: " ++ m)), t)
  | (.unreach, t) => (.unreach, t)

/-! ## The child-process body: execute_test_case -/

/-- Exceptions that the child body can see while setting up: a
std::runtime_error style exception with a message (as raised by
isolate_process), or an exception of unknown type. -/
inductive ChildExn where
  | runtimeErr (msg : String)
  | unknownExn
deriving DecidableEq, Repr

/-- Environment of the child body: the exception raised during isolation
or argument setup, if any, and the message of the process::system_error
raised by the exec attempt, if the exec fails (none means the exec
succeeded and replaced the process image). -/
structure ChildEnv where
  isoFails : Option ChildExn
  execFails : Option String

/-- How the child body terminates: the process image was replaced by a
successful exec, the child exited with a code, the child aborted, or the
body returned normally to its caller (never produced by the code;
included so that its absence is a provable statement). -/
inductive ChildEnd where
  | execed
  | exited (code : Int)
  | aborted
  | returned
deriving DecidableEq, Repr

/-- Outcome of safe_run: successful exec, immediate exit with the
exec-failure code after printing a diagnostic, or a propagated
exception. -/
inductive SafeRunOut where
  | execed
  | exitedExecFailure (diag : String)
  | raised (x : ChildExn)
deriving DecidableEq, Repr

/-- execute_test_case::safe_run — resolves the test program path, isolates
the process and execs the binary; an exec failure prints a diagnostic and
exits with exec_failure_code, any setup exception propagates. -/
def safe_run (e : ChildEnv) : SafeRunOut :=
  match e.isoFails with
  | some x => .raised x
  | none =>
    match e.execFails with
    | some m => .exitedExecFailure ("Failed to execute test program: " ++ m)
    | none => .execed

/-- execute_test_case::operator() — runs safe_run, catches runtime errors
and unknown exceptions, reports them on the error stream of the child and
aborts; the second component is the list of lines written to the error
stream. -/
def execute_test_case_call (e : ChildEnv) : ChildEnd × List String :=
  match safe_run e with
  | .execed => (.execed, [])
  | .exitedExecFailure diag => (.exited exec_failure_code, [diag])
  | .raised (.runtimeErr m) =>
      (.aborted, ["Caught unhandled exception while setting up the testcase: " ++ m])
  | .raised .unknownExn =>
      (.aborted, ["Caught unknown exception while setting up the testcase"])

/-! ## Process isolation -/

/-- Disposition of a signal: the default disposition or a custom one. -/
inductive Disp where
  | dfl
  | custom
deriving DecidableEq, Repr

/-- Observable state of the process acted on by isolate_process. -/
structure ProcState where
  umaskVal : Nat
  disp : Nat → Disp
  env : String → Option String
  cwd : String

/-- Environment of one isolate_process call: which signals::reset calls
fail, whether chdir fails, and the platform value of signals::last_signo. -/
structure IsoEnv where
  resetFails : Nat → Bool
  chdirFails : Bool
  lastSigno : Nat

/-- Actions performed by isolate_process, recorded in order. -/
inductive IsoAction where
  | setUmask (m : Nat)
  | resetSig (i : Nat)
  | unsetVar (n : String)
  | setVar (n v : String)
  | chdirTo (p : String)
deriving DecidableEq, Repr

/-- The signal-reset loop of isolate_process over a list of signal
numbers: SIGKILL and SIGSTOP are skipped, every other signal is reset to
its default disposition, and a failing reset leaves the disposition
unchanged with the error swallowed. -/
def resetSigs (fails : Nat → Bool) (d : Nat → Disp) : List Nat → (Nat → Disp) × List IsoAction
  | [] => (d, [])
  | i :: rest =>
    if i ≠ SIGKILL ∧ i ≠ SIGSTOP then
      let d1 := if fails i then d else fun j => if j = i then Disp.dfl else d j
      let p := resetSigs fails d1 rest
      (p.1, .resetSig i :: p.2)
    else
      resetSigs fails d rest

/-- The locale environment variables unset by isolate_process, in source
order. -/
def localeVars : List String :=
  ["LANG", "LC_ALL", "LC_COLLATE", "LC_CTYPE", "LC_MESSAGES",
   "LC_MONETARY", "LC_NUMERIC", "LC_TIME"]

/-- isolate_process: sets the umask to 0022, resets the dispositions of
signals 0 through last_signo except SIGKILL and SIGSTOP (ignoring reset
errors), unsets the locale variables, sets TZ to UTC, changes the working
directory to cwd raising a runtime error on failure, and finally sets
HOME to the now-current working directory. -/
def isolate_process (e : IsoEnv) (s : ProcState) (cwd : String) :
    Except String ProcState × List IsoAction :=
  let s1 : ProcState := { s with umaskVal := 0o022 }
  let a1 : List IsoAction := [.setUmask 0o022]
  let p2 := resetSigs e.resetFails s1.disp (List.range (e.lastSigno + 1))
  let s2 : ProcState := { s1 with disp := p2.1 }
  let s3 : ProcState :=
    { s2 with env := fun n => if n ∈ localeVars then none else s2.env n }
  let a3 : List IsoAction := localeVars.map IsoAction.unsetVar
  let s4 : ProcState := { s3 with env := fun n => if n = "TZ" then some "UTC" else s3.env n }
  let a4 : List IsoAction := [.setVar "TZ" "UTC"]
  if e.chdirFails then
    (.error ("Failed to enter work directory " ++ cwd),
     a1 ++ p2.2 ++ a3 ++ a4 ++ [.chdirTo cwd])
  else
    let s5 : ProcState := { s4 with cwd := cwd }
    let s6 : ProcState :=
      { s5 with env := fun n => if n = "HOME" then some cwd else s5.env n }
    (.ok s6, a1 ++ p2.2 ++ a3 ++ a4 ++ [.chdirTo cwd, .setVar "HOME" cwd])

/-! ## Work-directory creation -/

/-- create_work_directory: reads TMPDIR (the argument resolves the getenv
call) and calls fs::mkdtemp on the template path under the chosen base.
The mkdtemp primitive (from utils::fs, outside this translation unit) is
passed as a function from the template to either the created path or a
filesystem error message. -/
def create_work_directory (tmpdir : Option String)
    (mkdtemp : String → Except String String) : Except String String :=
  match tmpdir with
  | none => mkdtemp "/tmp/kyua.XXXXXX"
  | some d => mkdtemp (d ++ "/kyua.XXXXXX")

/-! ## Concrete run environments used as witnesses and counterexamples -/

/-- A run whose interrupt flag already holds 15 (a leftover SIGTERM from a
previous run) and during which no signal is delivered: the flag stays
constant for the whole run.  Everything else succeeds and the child exits
with code 0. -/
def envLeftoverFlag : RunEnv :=
  { flag := fun _ => 15, createFails := none, mkdirRunFails := none,
    wait := .finished (.exited 0), cleanupFails := none, cleanupFails2 := none }

/-- A run interrupted by SIGINT before the first checkpoint in which the
work-directory cleanup performed on the interrupted path itself fails
with a filesystem error. -/
def envIntrCleanupFail : RunEnv :=
  { flag := fun _ => 2, createFails := none, mkdirRunFails := none,
    wait := .finished (.exited 0),
    cleanupFails := none, cleanupFails2 := some "Operation not permitted" }

/-- A run interrupted by SIGINT before the first checkpoint whose
interrupted-path cleanup succeeds. -/
def envIntrCleanupOk : RunEnv :=
  { flag := fun _ => 2, createFails := none, mkdirRunFails := none,
    wait := .finished (.exited 0), cleanupFails := none, cleanupFails2 := none }

/-- A run that is never signaled, whose child exits with code 0 and whose
work-directory cleanup fails with a disk error. -/
def envCleanupFail : RunEnv :=
  { flag := fun _ => 0, createFails := none, mkdirRunFails := none,
    wait := .finished (.exited 0),
    cleanupFails := some "Input/output error", cleanupFails2 := none }

/-- A run that is never signaled in which everything succeeds and the
child exits with code 0. -/
def envAllOk : RunEnv :=
  { flag := fun _ => 0, createFails := none, mkdirRunFails := none,
    wait := .finished (.exited 0), cleanupFails := none, cleanupFails2 := none }

/-- A run in which the flag is empty until the result is computed and a
SIGHUP arrives during cleanup, so only the final checkpoint sees it. -/
def envLateSignal : RunEnv :=
  { flag := fun i => if i ≤ 3 then 0 else 1, createFails := none,
    mkdirRunFails := none, wait := .finished (.exited 0),
    cleanupFails := none, cleanupFails2 := none }

/-- An isolation environment in which nothing fails and the platform has
signals 0 through 5. -/
def isoEnvOk : IsoEnv :=
  { resetFails := fun _ => false, chdirFails := false, lastSigno := 5 }

/-- An initial process state with a custom disposition on every signal, a
LANG setting and a stale HOME. -/
def procState0 : ProcState :=
  { umaskVal := 0o077, disp := fun _ => .custom,
    env := fun n => if n = "LANG" then some "C"
                    else if n = "HOME" then some "/root" else none,
    cwd := "/" }

/-- C1: calculate_result yields exactly: no status (timed out) maps to
broken "Test case timed out"; exit code 0 maps to passed; the reserved
exec-failure code 120 maps to broken "Failed to execute test program";
any other exit code c maps to failed with a message containing c;
termination by signal s maps to broken with a message containing s, with
the core-dump annotation appended exactly when a core was dumped; any
other termination shape maps to broken "Terminated in an unknown manner".
The mapping is a total function and code 120 is classified broken, never
failed, so the exec-failure check takes precedence over the generic
non-zero-exit case. -/
theorem C1_calculate_result_classification :
    calculate_result none = .broken "Test case timed out" ∧
    calculate_result (some (.exited 0)) = .passed ∧
    calculate_result (some (.exited exec_failure_code)) =
      .broken "Failed to execute test program" ∧
    (∀ c : Int, c ≠ 0 → c ≠ exec_failure_code →
      calculate_result (some (.exited c)) = .failed ("Exited with code " ++ toString c) ∧
      containsStr ("Exited with code " ++ toString c) (toString c)) ∧
    (∀ (s : Int) (core : Bool),
      calculate_result (some (.signaled s core)) =
        .broken ("Received signal " ++ toString s ++
                 (if core then " (core dumped)" else "")) ∧
      containsStr ("Received signal " ++ toString s ++
                   (if core then " (core dumped)" else "")) (toString s)) ∧
    calculate_result (some .unknown) = .broken "Terminated in an unknown manner" := by
  refine ⟨rfl, rfl, rfl, ?_, ?_, rfl⟩
  · intro c h0 h120
    refine ⟨?_, "Exited with code ", "", ?_⟩
    · simp [calculate_result, EXIT_SUCCESS, format_status, h0, h120]
    · simp
  · intro s core
    exact ⟨rfl, "Received signal ", (if core then " (core dumped)" else ""), rfl⟩

/-- Witness for C1 at exit code 7. -/
theorem C1_witness :
    (7 : Int) ≠ 0 ∧ (7 : Int) ≠ exec_failure_code ∧
    calculate_result (some (.exited 7)) = .failed "Exited with code 7" := by
  refine ⟨by decide, by decide, ?_⟩
  exact (C1_calculate_result_classification.2.2.2.1 7 (by decide) (by decide)).1

/-- C2: when the timed wait fails with EINTR and the interrupt flag is
set (the flag was just written by the handler whose signal interrupted
the wait), fork_and_wait kills the child, reaps it with a blocking wait
and raises interrupted via check_interrupt; moreover, on the EINTR branch
fork_and_wait never returns a termination status, whatever the flag. -/
theorem C2_fork_and_wait_eintr (flag : Nat) (msg : String) (h : flag ≠ 0) :
    fork_and_wait flag (.sysError EINTR msg) =
      (.raised (.interrupted flag), [.killChild, .blockingWait]) ∧
    ∀ (f : Nat) (s : Option ProcStatus),
      (fork_and_wait f (.sysError EINTR msg)).1 ≠ .ret s := by
  constructor
  · simp [fork_and_wait, check_interrupt, h]
  · intro f s
    by_cases hf : f = 0 <;> simp [fork_and_wait, check_interrupt, hf]

/-- Witness for C2 with SIGINT pending. -/
theorem C2_witness :
    fork_and_wait 2 (.sysError EINTR "Interrupted system call") =
      (.raised (.interrupted 2), [.killChild, .blockingWait]) :=
  (C2_fork_and_wait_eintr 2 "Interrupted system call" (by decide)).1

/-- C6: the child body never returns normally to the caller: an exec
failure prints a diagnostic and exits immediately with code 120, and any
other exception during isolation or setup is reported on the error
stream and followed by an abort. -/
theorem C6_child_never_returns (e : ChildEnv) :
    (execute_test_case_call e).1 ≠ .returned ∧
    (∀ m, e.isoFails = none → e.execFails = some m →
      execute_test_case_call e =
        (.exited exec_failure_code, ["Failed to execute test program: " ++ m])) ∧
    (∀ x, e.isoFails = some x →
      (execute_test_case_call e).1 = .aborted ∧ (execute_test_case_call e).2 ≠ []) := by
  refine ⟨?_, ?_, ?_⟩
  · rcases e with ⟨iso, ex⟩
    cases iso with
    | some x => cases x <;> simp [execute_test_case_call, safe_run]
    | none => cases ex <;> simp [execute_test_case_call, safe_run]
  · intro m h1 h2
    simp [execute_test_case_call, safe_run, h1, h2]
  · intro x hx
    cases x <;> simp [execute_test_case_call, safe_run, hx]

/-- Witness for C6: exec failure on a missing binary. -/
theorem C6_witness :
    execute_test_case_call
        { isoFails := none, execFails := some "No such file or directory" } =
      (.exited exec_failure_code,
       ["Failed to execute test program: No such file or directory"]) :=
  (C6_child_never_returns
      { isoFails := none, execFails := some "No such file or directory" }).2.1
    "No such file or directory" rfl rfl

/-- C8: create_work_directory uses TMPDIR as the base when set and /tmp
otherwise, invokes the atomic mkdtemp primitive on the kyua.XXXXXX
template under that base, returns the created path, and propagates the
filesystem error when creation is impossible. -/
theorem C8_create_work_directory (tmpdir : Option String)
    (mkdtemp : String → Except String String) :
    create_work_directory tmpdir mkdtemp =
      mkdtemp ((tmpdir.getD "/tmp") ++ "/kyua.XXXXXX") ∧
    (∀ em, mkdtemp ((tmpdir.getD "/tmp") ++ "/kyua.XXXXXX") = .error em →
      create_work_directory tmpdir mkdtemp = .error em) ∧
    (∀ p, mkdtemp ((tmpdir.getD "/tmp") ++ "/kyua.XXXXXX") = .ok p →
      create_work_directory tmpdir mkdtemp = .ok p) := by
  have h : create_work_directory tmpdir mkdtemp =
      mkdtemp ((tmpdir.getD "/tmp") ++ "/kyua.XXXXXX") := by
    cases tmpdir <;> rfl
  exact ⟨h, fun em he => h.trans he, fun p hp => h.trans hp⟩

/-- Witness for C8 with TMPDIR set. -/
theorem C8_witness :
    create_work_directory (some "/var/tmp") (fun t => .ok t) =
      .ok "/var/tmp/kyua.XXXXXX" :=
  (C8_create_work_directory (some "/var/tmp") (fun t => .ok t)).2.2
    "/var/tmp/kyua.XXXXXX" rfl

/-- The trace of the signal-reset loop: one reset attempt per signal in
the list, in order, skipping SIGKILL and SIGSTOP. -/
theorem resetSigs_trace (fails : Nat → Bool) (d : Nat → Disp) (l : List Nat) :
    (resetSigs fails d l).2 =
      (l.filter (fun i => decide (i ≠ SIGKILL ∧ i ≠ SIGSTOP))).map IsoAction.resetSig := by
  induction l generalizing d with
  | nil => rfl
  | cons i rest ih =>
    by_cases h : i ≠ SIGKILL ∧ i ≠ SIGSTOP
    · simp [resetSigs, h, List.filter_cons, ih]
    · simp [resetSigs, h, List.filter_cons, ih]

/-- The signal-reset loop does not touch the disposition of a signal that
is not in the list. -/
theorem resetSigs_not_mem (fails : Nat → Bool) (d : Nat → Disp) (l : List Nat)
    (j : Nat) (hj : j ∉ l) : (resetSigs fails d l).1 j = d j := by
  induction l generalizing d with
  | nil => rfl
  | cons i rest ih =>
    simp only [List.mem_cons, not_or] at hj
    by_cases h : i ≠ SIGKILL ∧ i ≠ SIGSTOP
    · by_cases hf : fails i
      · simp [resetSigs, h, hf, ih _ hj.2]
      · simp [resetSigs, h, hf, ih _ hj.2, hj.1]
    · simp [resetSigs, h, ih _ hj.2]

/-- The signal-reset loop leaves SIGKILL and SIGSTOP untouched. -/
theorem resetSigs_fixed (fails : Nat → Bool) (d : Nat → Disp) (l : List Nat)
    (j : Nat) (hj : j = SIGKILL ∨ j = SIGSTOP) : (resetSigs fails d l).1 j = d j := by
  induction l generalizing d with
  | nil => rfl
  | cons i rest ih =>
    by_cases h : i ≠ SIGKILL ∧ i ≠ SIGSTOP
    · by_cases hf : fails i
      · simp [resetSigs, h, hf, ih]
      · have hij : j ≠ i := by
          rcases hj with rfl | rfl
          · exact fun hc => h.1 hc.symm
          · exact fun hc => h.2 hc.symm
        simp [resetSigs, h, hf, ih, hij]
    · simp [resetSigs, h, ih]

/-- A signal in the list, different from SIGKILL and SIGSTOP, whose reset
does not fail, ends with the default disposition. -/
theorem resetSigs_mem (fails : Nat → Bool) (d : Nat → Disp) (l : List Nat)
    (i : Nat) (hi : i ∈ l) (hK : i ≠ SIGKILL) (hS : i ≠ SIGSTOP)
    (hf : fails i = false) : (resetSigs fails d l).1 i = Disp.dfl := by
  induction l generalizing d with
  | nil => simp at hi
  | cons a rest ih =>
    by_cases hmem : i ∈ rest
    · by_cases h : a ≠ SIGKILL ∧ a ≠ SIGSTOP
      · by_cases hfa : fails a <;> simp [resetSigs, h, hfa, ih _ hmem]
      · simp [resetSigs, h, ih _ hmem]
    · have hia : i = a := by
        rcases List.mem_cons.mp hi with h | h
        · exact h
        · exact absurd h hmem
      subst hia
      simp [resetSigs, And.intro hK hS, hf, resetSigs_not_mem fails _ rest i hmem]

/-- C7: isolate_process performs, in this order: umask to 0022; reset of
the disposition of every signal from 0 to last_signo except SIGKILL and
SIGSTOP with reset errors silently ignored; unset of LANG, LC_ALL,
LC_COLLATE, LC_CTYPE, LC_MESSAGES, LC_MONETARY, LC_NUMERIC, LC_TIME; TZ
set to UTC; chdir to the supplied path raising a setup error when it
fails (in which case HOME is not touched); and finally HOME set to the
now-current working directory. -/
theorem C7_isolate_process (e : IsoEnv) (s : ProcState) (cwd : String) :
    (isolate_process e s cwd).2 =
      [IsoAction.setUmask 0o022] ++
      ((List.range (e.lastSigno + 1)).filter
          (fun i => decide (i ≠ SIGKILL ∧ i ≠ SIGSTOP))).map IsoAction.resetSig ++
      localeVars.map IsoAction.unsetVar ++
      [IsoAction.setVar "TZ" "UTC", IsoAction.chdirTo cwd] ++
      (if e.chdirFails then [] else [IsoAction.setVar "HOME" cwd]) ∧
    (e.chdirFails = true →
      (isolate_process e s cwd).1 = .error ("Failed to enter work directory " ++ cwd)) ∧
    (e.chdirFails = false →
      ∃ s2, (isolate_process e s cwd).1 = .ok s2 ∧
        s2.umaskVal = 0o022 ∧ s2.cwd = cwd ∧
        s2.env "HOME" = some cwd ∧ s2.env "TZ" = some "UTC" ∧
        (∀ v ∈ localeVars, s2.env v = none) ∧
        (∀ i, i ≤ e.lastSigno → i ≠ SIGKILL → i ≠ SIGSTOP → e.resetFails i = false →
          s2.disp i = Disp.dfl) ∧
        s2.disp SIGKILL = s.disp SIGKILL ∧ s2.disp SIGSTOP = s.disp SIGSTOP) := by
  refine ⟨?_, ?_, ?_⟩
  · by_cases hc : e.chdirFails <;>
      simp [isolate_process, hc, resetSigs_trace]
  · intro hc
    simp [isolate_process, hc]
  · intro hc
    refine ⟨{ umaskVal := 0o022,
              disp := (resetSigs e.resetFails s.disp (List.range (e.lastSigno + 1))).1,
              env := fun n =>
                if n = "HOME" then some cwd
                else if n = "TZ" then some "UTC"
                else if n ∈ localeVars then none else s.env n,
              cwd := cwd }, ?_, rfl, rfl, by rfl, by rfl, ?_, ?_, ?_, ?_⟩
    · simp [isolate_process, hc]
    · intro v hv
      simp only [localeVars, List.mem_cons, List.not_mem_nil, or_false] at hv
      rcases hv with rfl | rfl | rfl | rfl | rfl | rfl | rfl | rfl <;> rfl
    · intro i hle hK hS hf
      have hmem : i ∈ List.range (e.lastSigno + 1) :=
        List.mem_range.mpr (Nat.lt_succ_of_le hle)
      exact resetSigs_mem e.resetFails s.disp _ i hmem hK hS hf
    · exact resetSigs_fixed e.resetFails s.disp _ SIGKILL (Or.inl rfl)
    · exact resetSigs_fixed e.resetFails s.disp _ SIGSTOP (Or.inr rfl)

/-- Witness for C7: a concrete isolation with nothing failing on a
platform with signals 0 through 5. -/
theorem C7_witness :
    ∃ s2, (isolate_process isoEnvOk procState0 "/work").1 = .ok s2 ∧
      s2.umaskVal = 0o022 ∧ s2.cwd = "/work" ∧
      s2.env "HOME" = some "/work" ∧ s2.env "TZ" = some "UTC" ∧
      (∀ v ∈ localeVars, s2.env v = none) ∧
      (∀ i, i ≤ isoEnvOk.lastSigno → i ≠ SIGKILL → i ≠ SIGSTOP →
        isoEnvOk.resetFails i = false → s2.disp i = Disp.dfl) ∧
      s2.disp SIGKILL = procState0.disp SIGKILL ∧
      s2.disp SIGSTOP = procState0.disp SIGSTOP :=
  (C7_isolate_process isoEnvOk procState0 "/work").2.2 rfl

/-- check_interrupt returns none exactly when the flag is empty. -/
theorem check_interrupt_none (f : Nat) : check_interrupt f = none ↔ f = 0 := by
  by_cases hf : f = 0 <;> simp [check_interrupt, hf]

/-- Inversion for check_interrupt: a raised interruption carries the flag
value and the flag was nonempty. -/
theorem check_interrupt_some_inv (f s : Nat) (h : check_interrupt f = some s) :
    s = f ∧ f ≠ 0 := by
  by_cases hf : f = 0
  · simp [check_interrupt, hf] at h
  · simp [check_interrupt, hf] at h
    exact ⟨h.symm, hf⟩

/-- The interrupted-error catch block never falls into UNREACHABLE. -/
theorem catch_interrupted_not_unreach (e : RunEnv) (s : Nat) (t : List RunAction) :
    (catch_interrupted e s t).1 ≠ .unreach := by
  rcases h : e.cleanupFails2 with _ | m <;> simp [catch_interrupted, h]

/-- The interrupted-error catch block never returns a result. -/
theorem catch_interrupted_not_ok (e : RunEnv) (s : Nat) (t : List RunAction)
    (r : TestResult) : (catch_interrupted e s t).1 ≠ .ok r := by
  rcases h : e.cleanupFails2 with _ | m <;> simp [catch_interrupted, h]

/-- When the catch block re-raises an interruption, it is the caught one. -/
theorem catch_interrupted_intr (e : RunEnv) (s0 s : Nat) (t : List RunAction)
    (h : (catch_interrupted e s0 t).1 = .intr s) : s = s0 := by
  rcases h2 : e.cleanupFails2 with _ | m <;> simp [catch_interrupted, h2] at h
  exact h.symm

/-- fork_and_wait reaches UNREACHABLE only on an EINTR wait failure with
an empty interrupt flag. -/
theorem fork_unreach_char (f : Nat) (w : WaitOutcome)
    (h : (fork_and_wait f w).1 = .unreach) :
    ∃ m, w = .sysError EINTR m ∧ f = 0 := by
  rcases w with s | ⟨errno, msg⟩ | _
  · simp [fork_and_wait] at h
  · by_cases he : errno = EINTR
    · subst he
      rcases hf : check_interrupt f with _ | s
      · exact ⟨msg, rfl, (check_interrupt_none f).mp hf⟩
      · simp [fork_and_wait, hf] at h
    · simp [fork_and_wait, he] at h
  · simp [fork_and_wait] at h

/-- A raised interruption out of fork_and_wait carries the flag value seen
by check_interrupt on the EINTR branch, and that flag was nonzero. -/
theorem fork_raised_intr_inv (f : Nat) (w : WaitOutcome) (s : Nat)
    (h : (fork_and_wait f w).1 = .raised (.interrupted s)) : s = f ∧ f ≠ 0 := by
  rcases w with st | ⟨errno, msg⟩ | _
  · simp [fork_and_wait] at h
  · by_cases he : errno = EINTR
    · subst he
      rcases hf : check_interrupt f with _ | s2
      · simp [fork_and_wait, hf] at h
      · obtain ⟨h1, h2⟩ := check_interrupt_some_inv _ _ hf
        simp [fork_and_wait, hf] at h
        exact ⟨h ▸ h1, h2⟩
    · simp [fork_and_wait, he] at h
  · simp [fork_and_wait] at h

/-- Case analysis on run_test_case_safe: a returned result implies that
every checkpoint saw an empty flag; a raised interruption carries a
nonzero flag value observed at one of the five instants; the UNREACHABLE
abort needs an EINTR wait failure with an empty flag. -/
theorem run_safe_cases (e : RunEnv) :
    (∀ r, (run_test_case_safe e).1 = .ok r →
      e.flag 0 = 0 ∧ e.flag 1 = 0 ∧ e.flag 3 = 0 ∧ e.flag 4 = 0) ∧
    (∀ s, (run_test_case_safe e).1 = .intr s →
      s ≠ 0 ∧ (s = e.flag 0 ∨ s = e.flag 1 ∨ s = e.flag 2 ∨ s = e.flag 3 ∨ s = e.flag 4)) ∧
    ((run_test_case_safe e).1 = .unreach →
      ∃ m, e.wait = .sysError EINTR m ∧ e.flag 2 = 0) := by
  unfold run_test_case_safe
  rcases hcf : e.createFails with _ | m
  · simp only [hcf]
    rcases h0 : check_interrupt (e.flag 0) with _ | s0
    · simp only [h0]
      rcases hmk : e.mkdirRunFails with _ | m
      · simp only [hmk]
        rcases h1 : check_interrupt (e.flag 1) with _ | s1
        · simp only [h1]
          rcases hfw : fork_and_wait (e.flag 2) e.wait with ⟨fr, ta⟩
          rcases fr with st | ex | _
          · simp only [hfw]
            rcases h3 : check_interrupt (e.flag 3) with _ | s3
            · simp only [h3]
              rcases h4 : check_interrupt (e.flag 4) with _ | s4
              · simp only [h4]
                refine ⟨fun r hr => ?_, fun s hs => ?_, fun hu => ?_⟩
                · exact ⟨(check_interrupt_none _).mp h0, (check_interrupt_none _).mp h1,
                         (check_interrupt_none _).mp h3, (check_interrupt_none _).mp h4⟩
                · simp at hs
                · simp at hu
              · simp only [h4]
                obtain ⟨hsf, hnz⟩ := check_interrupt_some_inv _ _ h4
                refine ⟨fun r hr => by simp at hr, fun s hs => ?_, fun hu => by simp at hu⟩
                simp at hs
                subst hs
                exact ⟨by rw [hsf]; exact hnz, Or.inr (Or.inr (Or.inr (Or.inr hsf)))⟩
            · simp only [h3]
              obtain ⟨hsf, hnz⟩ := check_interrupt_some_inv _ _ h3
              refine ⟨fun r hr => absurd hr (catch_interrupted_not_ok _ _ _ _),
                      fun s hs => ?_,
                      fun hu => absurd hu (catch_interrupted_not_unreach _ _ _)⟩
              have hss := catch_interrupted_intr _ _ _ _ hs
              subst hss
              exact ⟨by rw [hsf]; exact hnz, Or.inr (Or.inr (Or.inr (Or.inl hsf)))⟩
          · rcases ex with s2 | mm
            · simp only [hfw]
              obtain ⟨hsf, hnz⟩ := fork_raised_intr_inv _ _ _ (by rw [hfw])
              refine ⟨fun r hr => absurd hr (catch_interrupted_not_ok _ _ _ _),
                      fun s hs => ?_,
                      fun hu => absurd hu (catch_interrupted_not_unreach _ _ _)⟩
              have hss := catch_interrupted_intr _ _ _ _ hs
              subst hss
              exact ⟨by rw [hsf]; exact hnz, Or.inr (Or.inr (Or.inl hsf))⟩
            · simp only [hfw]
              exact ⟨fun r hr => by simp at hr, fun s hs => by simp at hs,
                     fun hu => by simp at hu⟩
          · simp only [hfw]
            refine ⟨fun r hr => by simp at hr, fun s hs => by simp at hs, fun hu => ?_⟩
            exact fork_unreach_char _ _ (by rw [hfw])
        · simp only [h1]
          obtain ⟨hsf, hnz⟩ := check_interrupt_some_inv _ _ h1
          refine ⟨fun r hr => absurd hr (catch_interrupted_not_ok _ _ _ _),
                  fun s hs => ?_,
                  fun hu => absurd hu (catch_interrupted_not_unreach _ _ _)⟩
          have hss := catch_interrupted_intr _ _ _ _ hs
          subst hss
          exact ⟨by rw [hsf]; exact hnz, Or.inr (Or.inl hsf)⟩
      · simp only [hmk]
        exact ⟨fun r hr => by simp at hr, fun s hs => by simp at hs,
               fun hu => by simp at hu⟩
    · simp only [h0]
      obtain ⟨hsf, hnz⟩ := check_interrupt_some_inv _ _ h0
      refine ⟨fun r hr => absurd hr (catch_interrupted_not_ok _ _ _ _),
              fun s hs => ?_,
              fun hu => absurd hu (catch_interrupted_not_unreach _ _ _)⟩
      have hss := catch_interrupted_intr _ _ _ _ hs
      subst hss
      exact ⟨by rw [hsf]; exact hnz, Or.inl hsf⟩
  · simp only [hcf]
    exact ⟨fun r hr => by simp at hr, fun s hs => by simp at hs,
           fun hu => by simp at hu⟩

/-- C3 as stated is false on the code: in this run an Interrupted
condition is raised at the first checkpoint (the flag holds SIGINT), but
the cleanup call inside the interrupted-error catch block is unguarded
and its filesystem error replaces the interruption, which the public
entry point then converts into a broken result; the interruption is
never re-raised to the caller. -/
theorem C3_counterexample :
    check_interrupt (envIntrCleanupFail.flag 0) = some 2 ∧
    (do_run envIntrCleanupFail).1 =
      .ok (.broken
        "The test caused an error in the runtime system: Operation not permitted") ∧
    ∀ s, (do_run envIntrCleanupFail).1 ≠ .intr s := by
  refine ⟨rfl, rfl, fun s h => ?_⟩
  exact RunOutcome.noConfusion h

/-- C3 amended: whenever an Interrupted condition is raised at any
checkpoint inside the run and the forced cleanup on the interrupted path
succeeds, the orchestrator cleans the work directory, un-programs the
three signal handlers and re-raises exactly that interruption instead of
returning a result, and the public entry point passes the interruption
through unchanged; when the forced cleanup itself fails, its filesystem
error replaces the interruption. -/
theorem C3_amended_interrupt_propagation (e : RunEnv)
    (h2 : e.cleanupFails2 = none) (hc : e.createFails = none) :
    (e.flag 0 ≠ 0 →
      run_test_case_safe e =
        (.intr (e.flag 0),
         [.program SIGHUP, .program SIGINT, .program SIGTERM, .createWorkdir,
          .cleanupWorkdir, .unprogram SIGHUP, .unprogram SIGINT, .unprogram SIGTERM])) ∧
    (e.flag 0 = 0 → e.mkdirRunFails = none → e.flag 1 ≠ 0 →
      run_test_case_safe e =
        (.intr (e.flag 1),
         [.program SIGHUP, .program SIGINT, .program SIGTERM, .createWorkdir, .mkdirRun,
          .cleanupWorkdir, .unprogram SIGHUP, .unprogram SIGINT, .unprogram SIGTERM])) ∧
    (∀ msg, e.flag 0 = 0 → e.mkdirRunFails = none → e.flag 1 = 0 →
      e.wait = .sysError EINTR msg → e.flag 2 ≠ 0 →
      run_test_case_safe e =
        (.intr (e.flag 2),
         [.program SIGHUP, .program SIGINT, .program SIGTERM, .createWorkdir, .mkdirRun,
          .killChild, .blockingWait,
          .cleanupWorkdir, .unprogram SIGHUP, .unprogram SIGINT, .unprogram SIGTERM])) ∧
    (∀ st, e.flag 0 = 0 → e.mkdirRunFails = none → e.flag 1 = 0 →
      fork_and_wait (e.flag 2) e.wait = (.ret st, []) → e.flag 3 ≠ 0 →
      run_test_case_safe e =
        (.intr (e.flag 3),
         [.program SIGHUP, .program SIGINT, .program SIGTERM, .createWorkdir, .mkdirRun,
          .cleanupWorkdir, .unprogram SIGHUP, .unprogram SIGINT, .unprogram SIGTERM])) ∧
    (∀ s t, run_test_case_safe e = (.intr s, t) → do_run e = (.intr s, t)) := by
  refine ⟨?_, ?_, ?_, ?_, ?_⟩
  · intro hnz
    have c0 : check_interrupt (e.flag 0) = some (e.flag 0) := by
      simp [check_interrupt, hnz]
    simp [run_test_case_safe, hc, c0, catch_interrupted, h2]
  · intro h0 hmk hnz
    have c0 := (check_interrupt_none _).mpr h0
    have c1 : check_interrupt (e.flag 1) = some (e.flag 1) := by
      simp [check_interrupt, hnz]
    simp [run_test_case_safe, hc, c0, hmk, c1, catch_interrupted, h2]
  · intro msg h0 hmk h1 hw hnz
    have c0 := (check_interrupt_none _).mpr h0
    have c1 := (check_interrupt_none _).mpr h1
    have cfw : fork_and_wait (e.flag 2) e.wait =
        (.raised (.interrupted (e.flag 2)), [.killChild, .blockingWait]) := by
      simp [fork_and_wait, hw, check_interrupt, hnz]
    simp [run_test_case_safe, hc, c0, hmk, c1, cfw, catch_interrupted, h2]
  · intro st h0 hmk h1 hw hnz
    have c0 := (check_interrupt_none _).mpr h0
    have c1 := (check_interrupt_none _).mpr h1
    have c3 : check_interrupt (e.flag 3) = some (e.flag 3) := by
      simp [check_interrupt, hnz]
    simp [run_test_case_safe, hc, c0, hmk, c1, hw, c3, catch_interrupted, h2]
  · intro s t h
    simp [do_run, h]

/-- Witness for the amended C3: a SIGINT recorded before the first
checkpoint whose forced cleanup succeeds is re-raised after cleanup and
un-programming. -/
theorem C3_witness :
    run_test_case_safe envIntrCleanupOk =
      (.intr (envIntrCleanupOk.flag 0),
       [.program SIGHUP, .program SIGINT, .program SIGTERM, .createWorkdir,
        .cleanupWorkdir, .unprogram SIGHUP, .unprogram SIGINT, .unprogram SIGTERM]) :=
  (C3_amended_interrupt_propagation envIntrCleanupOk rfl rfl).1 (by decide)

/-- C4: no exception other than Interrupted escapes the public run entry
point: whatever the environment (granted the invariant that an EINTR wait
failure means a handled signal ran, so the flag is nonempty), do_run ends
with a returned result or a re-raised interruption, and any non-interrupt
exception out of run_test_case_safe is converted into a broken result
carrying its message. -/
theorem C4_do_run_never_throws (e : RunEnv)
    (h : ∀ m, e.wait = .sysError EINTR m → e.flag 2 ≠ 0) :
    ((∃ r, (do_run e).1 = .ok r) ∨ (∃ s, (do_run e).1 = .intr s)) ∧
    (∀ m t, run_test_case_safe e = (.err m, t) →
      do_run e = (.ok (.broken ("The test caused an error in the runtime system: " ++ m)), t)) := by
  constructor
  · rcases hrun : run_test_case_safe e with ⟨o, t⟩
    rcases o with r | s | m | _
    · exact Or.inl ⟨r, by simp [do_run, hrun]⟩
    · exact Or.inr ⟨s, by simp [do_run, hrun]⟩
    · exact Or.inl ⟨.broken ("The test caused an error in the runtime system: " ++ m),
        by simp [do_run, hrun]⟩
    · obtain ⟨m, hw, hf⟩ := (run_safe_cases e).2.2 (by rw [hrun])
      exact absurd hf (h m hw)
  · intro m t hmt
    simp [do_run, hmt]

/-- Witness for C4 on a run where everything succeeds. -/
theorem C4_witness :
    (∃ r, (do_run envAllOk).1 = .ok r) ∨ (∃ s, (do_run envAllOk).1 = .intr s) :=
  (C4_do_run_never_throws envAllOk (fun m hm => by simp [envAllOk] at hm)).1

/-- C5: when cleanup fails after a result has been computed, a good
(passed) result is downgraded to broken carrying the cleanup error text,
and an already failed or broken result is returned unchanged. -/
theorem C5_cleanup_failure_downgrade (e : RunEnv) (st : Option ProcStatus) (m : String)
    (h0 : e.createFails = none) (h1 : e.mkdirRunFails = none)
    (hf : ∀ i, e.flag i = 0)
    (hw : fork_and_wait (e.flag 2) e.wait = (.ret st, []))
    (hc : e.cleanupFails = some m) :
    (run_test_case_safe e).1 =
      .ok (if (calculate_result st).good then
            .broken ("Could not clean up test work directory: " ++ m)
          else calculate_result st) := by
  have c0 := (check_interrupt_none _).mpr (hf 0)
  have c1 := (check_interrupt_none _).mpr (hf 1)
  have c3 := (check_interrupt_none _).mpr (hf 3)
  have c4 := (check_interrupt_none _).mpr (hf 4)
  simp [run_test_case_safe, h0, c0, h1, hw, c1, c3, hc, c4]

/-- Witness for C5: a passed run whose cleanup fails ends broken with the
cleanup error text. -/
theorem C5_witness :
    (run_test_case_safe envCleanupFail).1 =
      .ok (if (calculate_result (some (.exited 0))).good then
            .broken ("Could not clean up test work directory: " ++ "Input/output error")
          else calculate_result (some (.exited 0))) :=
  C5_cleanup_failure_downgrade envCleanupFail (some (.exited 0)) "Input/output error"
    rfl rfl (fun _ => rfl) rfl rfl

/-- C9 as stated is false on the code: interrupted_signo is a process
global that no code path resets, so a run that begins with a leftover
flag (here SIGTERM from a previous run) and is never signaled during its
own lifetime (the flag stays constant) still observes the interrupt and
raises Interrupted instead of returning a result. -/
theorem C9_counterexample :
    (∀ i j, envLeftoverFlag.flag i = envLeftoverFlag.flag j) ∧
    (run_test_case_safe envLeftoverFlag).1 = .intr 15 ∧
    ∀ r, (run_test_case_safe envLeftoverFlag).1 ≠ .ok r := by
  refine ⟨fun i j => rfl, rfl, fun r h => ?_⟩
  exact RunOutcome.noConfusion h

/-- C9 amended: programming the handlers does not reset the flag.  A run
whose flag is empty at every instant never raises Interrupted, but a
leftover nonzero flag makes the run raise Interrupted at its first
checkpoint even though it is never signaled during the run. -/
theorem C9_amended_flag_not_reset (e : RunEnv) :
    ((∀ i, e.flag i = 0) → ∀ s, (run_test_case_safe e).1 ≠ .intr s) ∧
    (e.flag 0 ≠ 0 → e.createFails = none → e.cleanupFails2 = none →
      (run_test_case_safe e).1 = .intr (e.flag 0)) := by
  constructor
  · intro hf s h
    obtain ⟨hnz, hor⟩ := (run_safe_cases e).2.1 s h
    rcases hor with h1 | h1 | h1 | h1 | h1 <;> rw [h1] at hnz <;> exact hnz (hf _)
  · intro hnz hc h2
    have c0 : check_interrupt (e.flag 0) = some (e.flag 0) := by
      simp [check_interrupt, hnz]
    simp [run_test_case_safe, hc, c0, catch_interrupted, h2]

/-- Witness for the amended C9: a run with an empty flag throughout does
not raise Interrupted. -/
theorem C9_witness :
    (run_test_case_safe envAllOk).1 ≠ .intr 15 :=
  (C9_amended_flag_not_reset envAllOk).1 (fun _ => rfl) 15

/-- C10: run_test_case_safe returns a computed result only if the
interrupt flag is still empty at the final checkpoint (a returned result
forces the flag at instant 4 to be empty); if the flag became nonzero by
the final checkpoint after the result was computed, the call raises
Interrupted after un-programming the handlers and the computed result is
discarded; and under flag monotonicity a signal recorded at any instant
up to the final checkpoint excludes returning a result. -/
theorem C10_result_needs_empty_final_flag (e : RunEnv) :
    (∀ r t, run_test_case_safe e = (.ok r, t) → e.flag 4 = 0) ∧
    (∀ st, e.createFails = none → e.flag 0 = 0 → e.mkdirRunFails = none →
      e.flag 1 = 0 → fork_and_wait (e.flag 2) e.wait = (.ret st, []) →
      e.flag 3 = 0 → e.flag 4 ≠ 0 →
      run_test_case_safe e =
        (.intr (e.flag 4),
         [.program SIGHUP, .program SIGINT, .program SIGTERM, .createWorkdir, .mkdirRun,
          .cleanupWorkdir, .unprogram SIGHUP, .unprogram SIGINT, .unprogram SIGTERM])) ∧
    ((∀ i j, i ≤ j → e.flag i ≠ 0 → e.flag j ≠ 0) →
      (∃ i, i ≤ 4 ∧ e.flag i ≠ 0) → ∀ r, (run_test_case_safe e).1 ≠ .ok r) := by
  refine ⟨?_, ?_, ?_⟩
  · intro r t h
    exact ((run_safe_cases e).1 r (by rw [h])).2.2.2
  · intro st hcr h0 hmk h1 hw h3 h4
    have c0 := (check_interrupt_none _).mpr h0
    have c1 := (check_interrupt_none _).mpr h1
    have c3 := (check_interrupt_none _).mpr h3
    have c4 : check_interrupt (e.flag 4) = some (e.flag 4) := by
      simp [check_interrupt, h4]
    simp [run_test_case_safe, hcr, c0, hmk, c1, hw, c3, c4]
  · rintro hmono ⟨i, hle, hnz⟩ r h
    have h4 : e.flag 4 ≠ 0 := hmono i 4 (by omega) hnz
    exact h4 (((run_safe_cases e).1 r h).2.2.2)

/-- Witness for C10: a SIGHUP arriving between the post-wait checkpoint
and the final checkpoint discards the computed result and raises
Interrupted. -/
theorem C10_witness :
    run_test_case_safe envLateSignal =
      (.intr (envLateSignal.flag 4),
       [.program SIGHUP, .program SIGINT, .program SIGTERM, .createWorkdir, .mkdirRun,
        .cleanupWorkdir, .unprogram SIGHUP, .unprogram SIGINT, .unprogram SIGTERM]) :=
  (C10_result_needs_empty_final_flag envLateSignal).2.1 (some (.exited 0))
    rfl rfl rfl rfl rfl rfl (by decide)
